import Mathlib

/-!
Verification of the dex instruction decoding and classification core
(`src/dex_instruction.h`).  The header defines the pseudo-instruction
signature constants, the format catalogue, the control-flow and
verification flag bitsets, and the bodies of the classifier predicates
and verify-flag accessors; the bodies of `Opcode`, `SizeInCodeUnits`,
`Next` and `Decode`, as well as the per-opcode metadata tables, live in
files absent from the repository snapshot and are modelled from the
spec where needed (each such definition says so in its doc comment).
Machine integers are modelled as `Nat` with explicit truncation:
code units are 16-bit, decoded register fields are 32-bit patterns.
-/

namespace Art

/-- Truncation to a 16-bit code unit (`uint16_t`). -/
def u16 (n : Nat) : Nat := n % 65536

/-- An instruction view: a non-owning cursor into a stream of 16-bit
code units (the C++ code reinterprets a `const uint16_t*`).  The stream
is modelled as a unit-indexed map and the cursor position is counted in
code units. -/
structure Instruction where
  stream : Nat → Nat
  pos : Nat

/-- Read the `i`-th code unit at the cursor, truncated to 16 bits. -/
def Instruction.fetch (ins : Instruction) (i : Nat) : Nat :=
  u16 (ins.stream (ins.pos + i))

namespace Instruction

/-- NOP-encoded switch-statement signature (header line 36). -/
def kPackedSwitchSignature : Nat := 0x0100
/-- NOP-encoded switch-statement signature (header line 37). -/
def kSparseSwitchSignature : Nat := 0x0200
/-- NOP-encoded array-data signature (header line 38). -/
def kArrayDataSignature : Nat := 0x0300

/-- The format catalogue, exactly as enumerated in the header
(lines 49-75): 25 tags. -/
inductive Format where
  | k10x  -- op
  | k12x  -- op vA, vB
  | k11n  -- op vA, #+B
  | k11x  -- op vAA
  | k10t  -- op +AA
  | k20bc -- op AA, kind@BBBB
  | k20t  -- op +AAAA
  | k22x  -- op vAA, vBBBB
  | k21t  -- op vAA, +BBBB
  | k21s  -- op vAA, #+BBBB
  | k21h  -- op vAA, #+BBBB00000[00000000]
  | k21c  -- op vAA, thing@BBBB
  | k23x  -- op vAA, vBB, vCC
  | k22b  -- op vAA, vBB, #+CC
  | k22t  -- op vA, vB, +CCCC
  | k22s  -- op vA, vB, #+CCCC
  | k22c  -- op vA, vB, thing@CCCC
  | k32x  -- op vAAAA, vBBBB
  | k30t  -- op +AAAAAAAA
  | k31t  -- op vAA, +BBBBBBBB
  | k31i  -- op vAA, #+BBBBBBBB
  | k31c  -- op vAA, thing@BBBBBBBB
  | k35c  -- op {vC, vD, vE, vF, vG}, thing@BBBB (B: count, A: vG)
  | k3rc  -- op {vCCCC .. v(CCCC+AA-1)}, meth@BBBB
  | k51l  -- op vAA, #+BBBBBBBBBBBBBBBB
deriving DecidableEq

/-- The 25 format tags, listed in declaration order. -/
def allFormats : List Format :=
  [.k10x, .k12x, .k11n, .k11x, .k10t, .k20bc, .k20t, .k22x, .k21t,
   .k21s, .k21h, .k21c, .k23x, .k22b, .k22t, .k22s, .k22c, .k32x,
   .k30t, .k31t, .k31i, .k31c, .k35c, .k3rc, .k51l]

-- Control-flow flag bits (header lines 77-85).
def kBranch : Nat := 0x01
def kContinue : Nat := 0x02
def kSwitch : Nat := 0x04
def kThrow : Nat := 0x08
def kReturn : Nat := 0x10
def kInvoke : Nat := 0x20

-- Verification flag bits (header lines 87-109).
def kVerifyNone : Nat := 0x00000
def kVerifyRegA : Nat := 0x00001
def kVerifyRegAWide : Nat := 0x00002
def kVerifyRegB : Nat := 0x00004
def kVerifyRegBField : Nat := 0x00008
def kVerifyRegBMethod : Nat := 0x00010
def kVerifyRegBNewInstance : Nat := 0x00020
def kVerifyRegBString : Nat := 0x00040
def kVerifyRegBType : Nat := 0x00080
def kVerifyRegBWide : Nat := 0x00100
def kVerifyRegC : Nat := 0x00200
def kVerifyRegCField : Nat := 0x00400
def kVerifyRegCNewArray : Nat := 0x00800
def kVerifyRegCType : Nat := 0x01000
def kVerifyRegCWide : Nat := 0x02000
def kVerifyArrayData : Nat := 0x04000
def kVerifyBranchTarget : Nat := 0x08000
def kVerifySwitchTargets : Nat := 0x10000
def kVerifyVarArg : Nat := 0x20000
def kVerifyVarArgRange : Nat := 0x40000
def kVerifyError : Nat := 0x80000

/-- Modelled from the spec: the `NOP` opcode value (0x00).  The
per-opcode list `dex_instruction_list.h` is absent from the snapshot;
the spec states pseudo-instructions are "encoded as opcode NOP (0x00)". -/
def NOP : Nat := 0x00

/-- Modelled from the spec: the dedicated throw opcode singled out by
`IsBasicBlockEnd`.  Its numeric value comes from the absent opcode list
(`dex_instruction_list.h`); the standard dex opcode `throw` is 0x27.
None of the theorems below depend on the particular value. -/
def THROW : Nat := 0x27

/-- Modelled from the spec: `Opcode()` (body in the absent
`dex_instruction.cc`) "returns the Opcode stored in the low 8 bits of
the code unit at the cursor's position". -/
def Opcode (ins : Instruction) : Nat := ins.fetch 0 % 256

/-- Modelled from the spec: the fixed code-unit count of each format
(the size switch lives in the absent `dex_instruction.cc`).  Each
format's layout comment in the header determines its unit count, which
the format's name records as its leading digit. -/
def formatSize : Format → Nat
  | .k10x | .k12x | .k11n | .k11x | .k10t => 1
  | .k20bc | .k20t | .k22x | .k21t | .k21s | .k21h | .k21c
  | .k23x | .k22b | .k22t | .k22s | .k22c => 2
  | .k32x | .k30t | .k31t | .k31i | .k31c | .k35c | .k3rc => 3
  | .k51l => 5

/-- Modelled from the spec: `SizeInCodeUnits` (body in the absent
`dex_instruction.cc`).  A leading code unit equal to one of the three
pseudo-instruction signatures sizes the block from counts stored in its
own payload: packed-switch data is `4 + 2*entries` units with the entry
count in the following unit, sparse-switch data is `2 + 4*entries`,
and array data is `4 + ceil(entries*element_width / 2)` with the
element width in the following unit and a 32-bit entry count in the two
units after it.  Any other leading unit is an ordinary instruction
whose size is the fixed unit count of its opcode's format; the format
table `kInstructionFormats` is absent, so it is a parameter `fo`. -/
def SizeInCodeUnits (fo : Nat → Format) (ins : Instruction) : Nat :=
  if ins.fetch 0 = kPackedSwitchSignature then
    4 + ins.fetch 1 * 2
  else if ins.fetch 0 = kSparseSwitchSignature then
    2 + ins.fetch 1 * 4
  else if ins.fetch 0 = kArrayDataSignature then
    4 + (ins.fetch 1 * (ins.fetch 2 + ins.fetch 3 * 65536) + 1) / 2
  else
    formatSize (fo (Opcode ins))

/-- Modelled from the spec: `Next` (body in the absent
`dex_instruction.cc`) "returns a new cursor positioned
`size_in_code_units() × 2` bytes past the current one". -/
def Next (fo : Nat → Format) (ins : Instruction) : Instruction :=
  ⟨ins.stream, ins.pos + SizeInCodeUnits fo ins⟩

/-- The byte address of a cursor: positions are counted in 16-bit code
units, so the byte address is twice the unit position. -/
def byteAddr (ins : Instruction) : Nat := 2 * ins.pos

/-- `IsBranch` (header lines 150-152); the flag table contents are in
the absent `dex_instruction_list.h`, so the table is a parameter. -/
def IsBranch (fl : Nat → Nat) (ins : Instruction) : Bool :=
  (fl (Opcode ins) &&& kBranch) != 0

/-- `IsSwitch` (header lines 155-157). -/
def IsSwitch (fl : Nat → Nat) (ins : Instruction) : Bool :=
  (fl (Opcode ins) &&& kSwitch) != 0

/-- `IsThrow` (header lines 160-162). -/
def IsThrow (fl : Nat → Nat) (ins : Instruction) : Bool :=
  (fl (Opcode ins) &&& kThrow) != 0

/-- `IsReturn` (header lines 165-167). -/
def IsReturn (fl : Nat → Nat) (ins : Instruction) : Bool :=
  (fl (Opcode ins) &&& kReturn) != 0

/-- `IsInvoke` (header lines 175-177). -/
def IsInvoke (fl : Nat → Nat) (ins : Instruction) : Bool :=
  (fl (Opcode ins) &&& kInvoke) != 0

/-- `IsBasicBlockEnd` (header lines 170-172):
`IsBranch() || IsReturn() || Opcode() == THROW`. -/
def IsBasicBlockEnd (fl : Nat → Nat) (ins : Instruction) : Bool :=
  IsBranch fl ins || IsReturn fl ins || (Opcode ins == THROW)

/-- The operand-A verify mask used by `GetVerifyTypeArgumentA`
(header lines 179-181). -/
def verifyMaskA : Nat := kVerifyRegA ||| kVerifyRegAWide

/-- The operand-B verify mask used by `GetVerifyTypeArgumentB`
(header lines 183-186). -/
def verifyMaskB : Nat :=
  kVerifyRegB ||| kVerifyRegBField ||| kVerifyRegBMethod |||
  kVerifyRegBNewInstance ||| kVerifyRegBString ||| kVerifyRegBType |||
  kVerifyRegBWide

/-- The operand-C verify mask used by `GetVerifyTypeArgumentC`
(header lines 188-191). -/
def verifyMaskC : Nat :=
  kVerifyRegC ||| kVerifyRegCField ||| kVerifyRegCNewArray |||
  kVerifyRegCType ||| kVerifyRegCWide

/-- The extra-flags verify mask used by `GetVerifyExtraFlags`
(header lines 193-196). -/
def verifyMaskExtra : Nat :=
  kVerifyArrayData ||| kVerifyBranchTarget ||| kVerifySwitchTargets |||
  kVerifyVarArg ||| kVerifyVarArgRange ||| kVerifyError

/-- `GetVerifyTypeArgumentA` (header lines 179-181); the verify-flag
table contents are in the absent `dex_instruction_list.h`, so the table
is a parameter `vt`. -/
def GetVerifyTypeArgumentA (vt : Nat → Nat) (ins : Instruction) : Nat :=
  vt (Opcode ins) &&& verifyMaskA

/-- `GetVerifyTypeArgumentB` (header lines 183-186). -/
def GetVerifyTypeArgumentB (vt : Nat → Nat) (ins : Instruction) : Nat :=
  vt (Opcode ins) &&& verifyMaskB

/-- `GetVerifyTypeArgumentC` (header lines 188-191). -/
def GetVerifyTypeArgumentC (vt : Nat → Nat) (ins : Instruction) : Nat :=
  vt (Opcode ins) &&& verifyMaskC

/-- `GetVerifyExtraFlags` (header lines 193-196). -/
def GetVerifyExtraFlags (vt : Nat → Nat) (ins : Instruction) : Nat :=
  vt (Opcode ins) &&& verifyMaskExtra

/-- `At` (header lines 134-137): `CHECK(code != NULL)` fails fast on a
null pointer, modelled as `Except.error`; otherwise the pointer is
reinterpreted in place, so the returned view is the argument itself,
uncopied. -/
def At : Option Instruction → Except String Instruction
  | none => Except.error "code != NULL"
  | some ins => Except.ok ins

/-- The low 4-bit register slot in the leading code unit's high byte
(the spec's "nibble" slot `A`). -/
def INST_A (insn : Nat) : Nat := insn / 256 % 16

/-- The high 4-bit slot of the leading code unit (the spec's nibble
slot `B`). -/
def INST_B (insn : Nat) : Nat := insn / 4096 % 16

/-- The full high byte of the leading code unit (the spec's byte slot
`AA`). -/
def INST_AA (insn : Nat) : Nat := insn / 256 % 256

/-- Sign-extension of a `bits`-wide field to a 32-bit pattern: a value
with the top field bit set gains the missing high one-bits. -/
def signExtTo32 (bits v : Nat) : Nat :=
  if v / 2 ^ (bits - 1) % 2 = 1 then v + (2 ^ 32 - 2 ^ bits) else v

/-- The signed reading of a 32-bit pattern (two's complement). -/
def toInt32 (v : Nat) : Int :=
  if v % 2 ^ 32 < 2 ^ 31 then ((v % 2 ^ 32 : Nat) : Int)
  else ((v % 2 ^ 32 : Nat) : Int) - 2 ^ 32

/-- The signed (two's complement) value of a raw `bits`-wide field. -/
def sIntOfBits (bits v : Nat) : Int :=
  if v / 2 ^ (bits - 1) % 2 = 1 then (v : Int) - 2 ^ bits else (v : Int)

end Instruction

/-- The record produced by decoding one instruction (header lines
215-224): 32-bit operands `vA`, `vB`, `vC`, a 64-bit `vB_wide` used
only by `k51l`, a five-slot `arg` list used by the variable-argument
forms, and the opcode. -/
structure DecodedInstruction where
  vA : Nat
  vB : Nat
  vB_wide : Nat
  vC : Nat
  arg : List Nat
  opcode : Nat
deriving DecidableEq

/-- Pad an argument list to the fixed five-slot capacity with zeroes. -/
def padTo5 (l : List Nat) : List Nat := l ++ List.replicate (5 - l.length) 0

namespace Instruction

/-- Modelled from the spec: `Decode` (body in the absent
`dex_instruction.cc`).  A pure function of the opcode's format and the
raw bits at the cursor: register and reference slots are zero-extended,
signed immediates and branch offsets are sign-extended to 32 bits, the
one 64-bit-immediate format `k51l` fills `vB_wide` with the raw 64-bit
pattern, the two register-list formats fill `arg` (`k35c` from packed
nibbles with the fifth register folded into the leading byte, `k3rc`
by synthesizing the run `start..start+count-1`), and a list count
exceeding the five-slot capacity is a decode error (`none`), never a
silent truncation.  The format table is the parameter `fo`. -/
def Decode (fo : Nat → Format) (ins : Instruction) : Option DecodedInstruction :=
  let insn := ins.fetch 0
  let op := Opcode ins
  let f1 := ins.fetch 1
  let f2 := ins.fetch 2
  let f3 := ins.fetch 3
  let f4 := ins.fetch 4
  let w32 := f1 + f2 * 65536
  let none5 : List Nat := [0, 0, 0, 0, 0]
  match fo op with
  | .k10x => some ⟨0, 0, 0, 0, none5, op⟩
  | .k12x => some ⟨INST_A insn, INST_B insn, 0, 0, none5, op⟩
  | .k11n => some ⟨INST_A insn, signExtTo32 4 (INST_B insn), 0, 0, none5, op⟩
  | .k11x => some ⟨INST_AA insn, 0, 0, 0, none5, op⟩
  | .k10t => some ⟨signExtTo32 8 (INST_AA insn), 0, 0, 0, none5, op⟩
  | .k20bc => some ⟨INST_AA insn, f1, 0, 0, none5, op⟩
  | .k20t => some ⟨signExtTo32 16 f1, 0, 0, 0, none5, op⟩
  | .k22x => some ⟨INST_AA insn, f1, 0, 0, none5, op⟩
  | .k21t => some ⟨INST_AA insn, signExtTo32 16 f1, 0, 0, none5, op⟩
  | .k21s => some ⟨INST_AA insn, signExtTo32 16 f1, 0, 0, none5, op⟩
  | .k21h => some ⟨INST_AA insn, f1, 0, 0, none5, op⟩
  | .k21c => some ⟨INST_AA insn, f1, 0, 0, none5, op⟩
  | .k23x => some ⟨INST_AA insn, f1 % 256, 0, f1 / 256 % 256, none5, op⟩
  | .k22b => some ⟨INST_AA insn, f1 % 256, 0, signExtTo32 8 (f1 / 256 % 256), none5, op⟩
  | .k22t => some ⟨INST_A insn, INST_B insn, 0, signExtTo32 16 f1, none5, op⟩
  | .k22s => some ⟨INST_A insn, INST_B insn, 0, signExtTo32 16 f1, none5, op⟩
  | .k22c => some ⟨INST_A insn, INST_B insn, 0, f1, none5, op⟩
  | .k32x => some ⟨f1, f2, 0, 0, none5, op⟩
  | .k30t => some ⟨signExtTo32 32 w32, 0, 0, 0, none5, op⟩
  | .k31t => some ⟨INST_AA insn, signExtTo32 32 w32, 0, 0, none5, op⟩
  | .k31i => some ⟨INST_AA insn, signExtTo32 32 w32, 0, 0, none5, op⟩
  | .k31c => some ⟨INST_AA insn, w32, 0, 0, none5, op⟩
  | .k35c =>
    let count := INST_B insn
    if count ≤ 5 then
      let regs := [f2 % 16, f2 / 16 % 16, f2 / 256 % 16, f2 / 4096 % 16,
                   INST_A insn]
      some ⟨count, f1, 0, f2 % 16, padTo5 (regs.take count), op⟩
    else none
  | .k3rc =>
    let count := INST_AA insn
    let start := f2
    if count ≤ 5 then
      some ⟨count, f1, 0, start,
            padTo5 ((List.range count).map (fun i => start + i)), op⟩
    else none
  | .k51l =>
    some ⟨INST_AA insn, 0,
          f1 + f2 * 65536 + f3 * 4294967296 + f4 * 281474976710656,
          0, none5, op⟩

end Instruction

/-- Build a concrete stream from a list of code units (zero past the
end). -/
def streamOf (l : List Nat) : Nat → Nat := fun i => l.getD i 0

namespace Instruction

theorem toInt32_signExtTo32_4 (v : Nat) (hv : v < 16) :
    toInt32 (signExtTo32 4 v) = sIntOfBits 4 v := by
  unfold toInt32 signExtTo32 sIntOfBits
  split_ifs <;> push_cast <;> omega

theorem toInt32_signExtTo32_8 (v : Nat) (hv : v < 256) :
    toInt32 (signExtTo32 8 v) = sIntOfBits 8 v := by
  unfold toInt32 signExtTo32 sIntOfBits
  split_ifs <;> push_cast <;> omega

theorem toInt32_signExtTo32_16 (v : Nat) (hv : v < 65536) :
    toInt32 (signExtTo32 16 v) = sIntOfBits 16 v := by
  unfold toInt32 signExtTo32 sIntOfBits
  split_ifs <;> push_cast <;> omega

theorem toInt32_signExtTo32_32 (v : Nat) (hv : v < 4294967296) :
    toInt32 (signExtTo32 32 v) = sIntOfBits 32 v := by
  unfold toInt32 signExtTo32 sIntOfBits
  split_ifs <;> push_cast <;> omega

theorem fetch_lt (ins : Instruction) (i : Nat) : ins.fetch i < 65536 :=
  Nat.mod_lt _ (by omega)

theorem formatSize_pos (f : Format) : 1 ≤ formatSize f := by
  cases f <;> simp [formatSize]

theorem take_padTo5_of_length (l : List Nat) (n : Nat) (hl : l.length = n) :
    (padTo5 l).take n = l := by
  subst hl
  rw [padTo5, List.take_left]

end Instruction

/-- A packed-switch data block declaring 3 entries. -/
def packed3 : Instruction := ⟨streamOf [0x0100, 3], 0⟩

/-- A sparse-switch data block declaring 2 entries. -/
def sparse2 : Instruction := ⟨streamOf [0x0200, 2], 0⟩

/-- A plain NOP instruction (code unit 0x0000). -/
def nopPlain : Instruction := ⟨streamOf [0x0000], 0⟩

/-- A format table sending every opcode to `k10x` (the NOP format),
used to instantiate parametric theorems on concrete streams. -/
def foNop : Nat → Instruction.Format := fun _ => Instruction.Format.k10x

/-- A flag table giving every opcode the can-throw and switch flags
but neither the branch nor the return flag. -/
def flThrowSwitch : Nat → Nat := fun _ =>
  Instruction.kThrow ||| Instruction.kSwitch

namespace Instruction

/-- C1: at a pseudo-instruction (a NOP-opcoded unit whose signature is
0x0100, 0x0200 or 0x0300), `SizeInCodeUnits` is computed from the entry
count in the block's own payload: packed-switch data occupies
`4 + 2*entries` code units, sparse-switch data `2 + 4*entries`, and
array data `4 + ceil(entries*element_width / 2)` (in `Nat`,
`(n + 1) / 2 = ceil(n / 2)`); in particular a packed-switch block
declaring 3 entries has size 10 and a sparse-switch block declaring 2
entries has size 10. -/
theorem claim_C1_pseudo_instruction_sizes (fo : Nat → Format) (ins : Instruction) :
    (ins.fetch 0 = kPackedSwitchSignature →
      SizeInCodeUnits fo ins = 4 + 2 * ins.fetch 1) ∧
    (ins.fetch 0 = kSparseSwitchSignature →
      SizeInCodeUnits fo ins = 2 + 4 * ins.fetch 1) ∧
    (ins.fetch 0 = kArrayDataSignature →
      SizeInCodeUnits fo ins =
        4 + ((ins.fetch 2 + ins.fetch 3 * 65536) * ins.fetch 1 + 1) / 2) ∧
    SizeInCodeUnits fo packed3 = 10 ∧
    SizeInCodeUnits fo sparse2 = 10 := by
  refine ⟨fun h => ?_, fun h => ?_, fun h => ?_, ?_, ?_⟩
  · unfold SizeInCodeUnits
    rw [h]
    norm_num [kPackedSwitchSignature]
    ring
  · unfold SizeInCodeUnits
    rw [h]
    norm_num [kPackedSwitchSignature, kSparseSwitchSignature]
    ring
  · unfold SizeInCodeUnits
    rw [h]
    norm_num [kPackedSwitchSignature, kSparseSwitchSignature,
      kArrayDataSignature]
    rw [Nat.mul_comm (ins.fetch 1)]
  · norm_num [SizeInCodeUnits, fetch, packed3, streamOf, u16,
      kPackedSwitchSignature]
  · norm_num [SizeInCodeUnits, fetch, sparse2, streamOf, u16,
      kPackedSwitchSignature, kSparseSwitchSignature]

/-- Witness for C1 at the concrete packed-switch block declaring 3
entries. -/
theorem claim_C1_pseudo_instruction_sizes_witness :
    SizeInCodeUnits foNop packed3 = 4 + 2 * packed3.fetch 1 :=
  (claim_C1_pseudo_instruction_sizes foNop packed3).1 (by decide)

/-- C2: `IsBasicBlockEnd` is true exactly when the opcode's flag entry
has the branch bit or the return bit set, or the opcode is THROW; it is
false for every other opcode, in particular ones that merely have the
can-throw flag or the switch flag. -/
theorem claim_C2_is_basic_block_end (fl : Nat → Nat) (ins : Instruction) :
    (IsBasicBlockEnd fl ins = true ↔
      (fl (Opcode ins) &&& kBranch ≠ 0 ∨ fl (Opcode ins) &&& kReturn ≠ 0 ∨
        Opcode ins = THROW)) ∧
    (Opcode ins ≠ THROW → fl (Opcode ins) &&& kBranch = 0 →
      fl (Opcode ins) &&& kReturn = 0 → IsBasicBlockEnd fl ins = false) := by
  constructor
  · simp [IsBasicBlockEnd, IsBranch, IsReturn, or_assoc]
  · intro h1 h2 h3
    simp [IsBasicBlockEnd, IsBranch, IsReturn, h1, h2, h3]

/-- Witness for C2: under a flag table whose every entry is exactly
can-throw plus switch, a NOP instruction does not end its basic
block. -/
theorem claim_C2_is_basic_block_end_witness :
    IsBasicBlockEnd flThrowSwitch nopPlain = false :=
  (claim_C2_is_basic_block_end flThrowSwitch nopPlain).2 (by decide)
    (by decide) (by decide)

/-- C3: `Next` advances the byte address by exactly
`SizeInCodeUnits * 2` bytes, and `SizeInCodeUnits` is at least 1 for
every stream and every format table, so the advance is strictly
forward and never zero. -/
theorem claim_C3_next_advances_strictly (fo : Nat → Format) (ins : Instruction) :
    byteAddr (Next fo ins) = byteAddr ins + SizeInCodeUnits fo ins * 2 ∧
    1 ≤ SizeInCodeUnits fo ins := by
  constructor
  · simp [byteAddr, Next]
    ring
  · unfold SizeInCodeUnits
    split_ifs
    · omega
    · omega
    · omega
    · exact formatSize_pos _

/-- C8: each pseudo-instruction signature constant has low byte 0x00,
the NOP opcode value, so `Opcode` at a signature code unit returns NOP
and a pseudo-instruction is indistinguishable from NOP by opcode
alone. -/
theorem claim_C8_signatures_look_like_nop (ins : Instruction) :
    kPackedSwitchSignature % 256 = NOP ∧
    kSparseSwitchSignature % 256 = NOP ∧
    kArrayDataSignature % 256 = NOP ∧
    ((ins.fetch 0 = kPackedSwitchSignature ∨
      ins.fetch 0 = kSparseSwitchSignature ∨
      ins.fetch 0 = kArrayDataSignature) → Opcode ins = NOP) := by
  refine ⟨by decide, by decide, by decide, ?_⟩
  rintro (h | h | h) <;>
    simp [Opcode, h, kPackedSwitchSignature, kSparseSwitchSignature,
      kArrayDataSignature, NOP]

/-- Witness for C8 at the concrete packed-switch block. -/
theorem claim_C8_signatures_look_like_nop_witness :
    Opcode packed3 = NOP :=
  (claim_C8_signatures_look_like_nop packed3).2.2.2 (Or.inl (by decide))

theorem INST_A_lt (x : Nat) : INST_A x < 16 := Nat.mod_lt _ (by norm_num)

theorem INST_B_lt (x : Nat) : INST_B x < 16 := Nat.mod_lt _ (by norm_num)

theorem INST_AA_lt (x : Nat) : INST_AA x < 256 := Nat.mod_lt _ (by norm_num)

theorem highByte_lt (x : Nat) : x / 256 % 256 < 256 := Nat.mod_lt _ (by norm_num)

theorem w32_lt (ins : Instruction) :
    ins.fetch 1 + ins.fetch 2 * 65536 < 4294967296 := by
  have h1 := fetch_lt ins 1
  have h2 := fetch_lt ins 2
  omega

/-- C4: every format carrying a signed immediate or branch offset
decodes that field by 32-bit sign extension — the decoded 32-bit
pattern read as a two's-complement integer equals the signed value of
the raw field (so an 8-bit immediate pattern 0xFF decodes to -1, not
255) — except the single all-64-bit-immediate format `k51l`, whose
`vB_wide` receives the raw 64-bit pattern unchanged. -/
theorem claim_C4_signed_fields_sign_extend (fo : Nat → Format) (ins : Instruction) :
    (fo (Opcode ins) = .k11n → ∃ d, Decode fo ins = some d ∧
      toInt32 d.vB = sIntOfBits 4 (INST_B (ins.fetch 0))) ∧
    (fo (Opcode ins) = .k10t → ∃ d, Decode fo ins = some d ∧
      toInt32 d.vA = sIntOfBits 8 (INST_AA (ins.fetch 0))) ∧
    (fo (Opcode ins) = .k20t → ∃ d, Decode fo ins = some d ∧
      toInt32 d.vA = sIntOfBits 16 (ins.fetch 1)) ∧
    (fo (Opcode ins) = .k21t → ∃ d, Decode fo ins = some d ∧
      toInt32 d.vB = sIntOfBits 16 (ins.fetch 1)) ∧
    (fo (Opcode ins) = .k21s → ∃ d, Decode fo ins = some d ∧
      toInt32 d.vB = sIntOfBits 16 (ins.fetch 1)) ∧
    (fo (Opcode ins) = .k22b → ∃ d, Decode fo ins = some d ∧
      toInt32 d.vC = sIntOfBits 8 (ins.fetch 1 / 256 % 256)) ∧
    (fo (Opcode ins) = .k22t → ∃ d, Decode fo ins = some d ∧
      toInt32 d.vC = sIntOfBits 16 (ins.fetch 1)) ∧
    (fo (Opcode ins) = .k22s → ∃ d, Decode fo ins = some d ∧
      toInt32 d.vC = sIntOfBits 16 (ins.fetch 1)) ∧
    (fo (Opcode ins) = .k30t → ∃ d, Decode fo ins = some d ∧
      toInt32 d.vA = sIntOfBits 32 (ins.fetch 1 + ins.fetch 2 * 65536)) ∧
    (fo (Opcode ins) = .k31t → ∃ d, Decode fo ins = some d ∧
      toInt32 d.vB = sIntOfBits 32 (ins.fetch 1 + ins.fetch 2 * 65536)) ∧
    (fo (Opcode ins) = .k31i → ∃ d, Decode fo ins = some d ∧
      toInt32 d.vB = sIntOfBits 32 (ins.fetch 1 + ins.fetch 2 * 65536)) ∧
    (fo (Opcode ins) = .k51l → ∃ d, Decode fo ins = some d ∧
      d.vB_wide = ins.fetch 1 + ins.fetch 2 * 65536 +
        ins.fetch 3 * 4294967296 + ins.fetch 4 * 281474976710656) := by
  refine ⟨fun h => ?_, fun h => ?_, fun h => ?_, fun h => ?_, fun h => ?_,
    fun h => ?_, fun h => ?_, fun h => ?_, fun h => ?_, fun h => ?_,
    fun h => ?_, fun h => ?_⟩ <;> simp only [Decode, h]
  · exact ⟨_, rfl, toInt32_signExtTo32_4 _ (INST_B_lt _)⟩
  · exact ⟨_, rfl, toInt32_signExtTo32_8 _ (INST_AA_lt _)⟩
  · exact ⟨_, rfl, toInt32_signExtTo32_16 _ (fetch_lt _ _)⟩
  · exact ⟨_, rfl, toInt32_signExtTo32_16 _ (fetch_lt _ _)⟩
  · exact ⟨_, rfl, toInt32_signExtTo32_16 _ (fetch_lt _ _)⟩
  · exact ⟨_, rfl, toInt32_signExtTo32_8 _ (highByte_lt _)⟩
  · exact ⟨_, rfl, toInt32_signExtTo32_16 _ (fetch_lt _ _)⟩
  · exact ⟨_, rfl, toInt32_signExtTo32_16 _ (fetch_lt _ _)⟩
  · exact ⟨_, rfl, toInt32_signExtTo32_32 _ (w32_lt _)⟩
  · exact ⟨_, rfl, toInt32_signExtTo32_32 _ (w32_lt _)⟩
  · exact ⟨_, rfl, toInt32_signExtTo32_32 _ (w32_lt _)⟩
  · exact ⟨_, rfl, rfl⟩

/-- Witness for C4: a `k10t` (branch) instruction whose 8-bit offset
field holds the pattern 0xFF decodes to the signed value -1. -/
theorem claim_C4_signed_fields_sign_extend_witness :
    (∃ d, Decode (fun _ => Format.k10t) ⟨streamOf [0xFF28], 0⟩ = some d ∧
      toInt32 d.vA =
        sIntOfBits 8 (INST_AA (Instruction.fetch ⟨streamOf [0xFF28], 0⟩ 0))) ∧
    sIntOfBits 8 0xFF = -1 :=
  ⟨(claim_C4_signed_fields_sign_extend (fun _ => Format.k10t)
      ⟨streamOf [0xFF28], 0⟩).2.1 rfl, by decide⟩

/-- C5: the register-range format `k3rc` decodes the argument list as
the consecutive run `start, start+1, ..., start+count-1` (with the
remaining slots of the five-slot list zero), so start register 5 with
count 4 yields `arg = [5,6,7,8]`; a count exceeding the five-slot
capacity is a decode error (`none`), never a silent truncation. -/
theorem claim_C5_range_run_and_capacity (fo : Nat → Format) (ins : Instruction)
    (h : fo (Opcode ins) = .k3rc) :
    (INST_AA (ins.fetch 0) ≤ 5 → ∃ d, Decode fo ins = some d ∧
      d.arg = padTo5 ((List.range (INST_AA (ins.fetch 0))).map
        (fun i => ins.fetch 2 + i)) ∧
      d.arg.take (INST_AA (ins.fetch 0)) =
        (List.range (INST_AA (ins.fetch 0))).map (fun i => ins.fetch 2 + i) ∧
      d.vA = INST_AA (ins.fetch 0) ∧ d.vC = ins.fetch 2) ∧
    (5 < INST_AA (ins.fetch 0) → Decode fo ins = none) := by
  constructor
  · intro hc
    simp only [Decode, h]
    rw [if_pos hc]
    exact ⟨_, rfl, rfl, take_padTo5_of_length _ _ (by simp), rfl, rfl⟩
  · intro hc
    simp only [Decode, h]
    rw [if_neg (by omega)]

/-- Witness for C5: a concrete `k3rc` instruction with count 4 and
start register 5 decodes to `arg = [5,6,7,8]`. -/
theorem claim_C5_range_run_and_capacity_witness :
    ∃ d, Decode (fun _ => Format.k3rc) ⟨streamOf [0x0474, 0x1234, 5], 0⟩ = some d ∧
      d.arg.take 4 = [5, 6, 7, 8] := by
  obtain ⟨d, hd, -, ht, -, -⟩ :=
    (claim_C5_range_run_and_capacity (fun _ => Format.k3rc)
      ⟨streamOf [0x0474, 0x1234, 5], 0⟩ rfl).1 (by decide)
  exact ⟨d, hd, by simpa using ht⟩

/-- C9: the four verify masks are pairwise disjoint, their union is
0xFFFFF (every nonzero `VerifyFlag` bit, 0x00001 through 0x80000), and
for every verify-flag table and opcode, each set bit below bit 20 is
reported by exactly one of the four accessors (a clear bit by none). -/
theorem claim_C9_verify_masks_partition (vt : Nat → Nat) (ins : Instruction)
    (i : Nat) (h : i < 20) :
    (verifyMaskA &&& verifyMaskB = 0 ∧ verifyMaskA &&& verifyMaskC = 0 ∧
     verifyMaskA &&& verifyMaskExtra = 0 ∧ verifyMaskB &&& verifyMaskC = 0 ∧
     verifyMaskB &&& verifyMaskExtra = 0 ∧
     verifyMaskC &&& verifyMaskExtra = 0) ∧
    (verifyMaskA ||| verifyMaskB ||| verifyMaskC ||| verifyMaskExtra =
      0xFFFFF) ∧
    (((GetVerifyTypeArgumentA vt ins).testBit i).toNat +
     ((GetVerifyTypeArgumentB vt ins).testBit i).toNat +
     ((GetVerifyTypeArgumentC vt ins).testBit i).toNat +
     ((GetVerifyExtraFlags vt ins).testBit i).toNat =
       if (vt (Opcode ins)).testBit i then 1 else 0) := by
  refine ⟨by decide, by decide, ?_⟩
  have hA : (GetVerifyTypeArgumentA vt ins).testBit i =
      ((vt (Opcode ins)).testBit i && verifyMaskA.testBit i) := by
    simp [GetVerifyTypeArgumentA, Nat.testBit_and]
  have hB : (GetVerifyTypeArgumentB vt ins).testBit i =
      ((vt (Opcode ins)).testBit i && verifyMaskB.testBit i) := by
    simp [GetVerifyTypeArgumentB, Nat.testBit_and]
  have hC : (GetVerifyTypeArgumentC vt ins).testBit i =
      ((vt (Opcode ins)).testBit i && verifyMaskC.testBit i) := by
    simp [GetVerifyTypeArgumentC, Nat.testBit_and]
  have hE : (GetVerifyExtraFlags vt ins).testBit i =
      ((vt (Opcode ins)).testBit i && verifyMaskExtra.testBit i) := by
    simp [GetVerifyExtraFlags, Nat.testBit_and]
  have hm : (verifyMaskA.testBit i).toNat + (verifyMaskB.testBit i).toNat +
      (verifyMaskC.testBit i).toNat + (verifyMaskExtra.testBit i).toNat = 1 := by
    interval_cases i <;> decide
  rw [hA, hB, hC, hE]
  cases hb : (vt (Opcode ins)).testBit i
  · simp
  · simpa using hm

/-- Witness for C9 at bit 0 of a table whose entries are exactly
`kVerifyRegA`. -/
theorem claim_C9_verify_masks_partition_witness :
    (verifyMaskA &&& verifyMaskB = 0 ∧ verifyMaskA &&& verifyMaskC = 0 ∧
     verifyMaskA &&& verifyMaskExtra = 0 ∧ verifyMaskB &&& verifyMaskC = 0 ∧
     verifyMaskB &&& verifyMaskExtra = 0 ∧
     verifyMaskC &&& verifyMaskExtra = 0) ∧
    (verifyMaskA ||| verifyMaskB ||| verifyMaskC ||| verifyMaskExtra =
      0xFFFFF) ∧
    (((GetVerifyTypeArgumentA (fun _ => 1) nopPlain).testBit 0).toNat +
     ((GetVerifyTypeArgumentB (fun _ => 1) nopPlain).testBit 0).toNat +
     ((GetVerifyTypeArgumentC (fun _ => 1) nopPlain).testBit 0).toNat +
     ((GetVerifyExtraFlags (fun _ => 1) nopPlain).testBit 0).toNat =
       if (Nat.testBit 1 0) then 1 else 0) :=
  claim_C9_verify_masks_partition (fun _ => 1) nopPlain 0 (by decide)

/-- C6 counterexample: the format catalogue of the source is 25
pairwise-distinct tags, and on a concrete non-pseudo stream every one
of the 25 tags decodes successfully (`isSome`) and has the fixed size
given by its layout; so it is not the case that only 22 of the 25 tags
are fixed-size decodable layouts with 3 variable-size pseudo tags —
the enum contains no pseudo-instruction tag at all. -/
theorem claim_C6_twentytwo_fixed_counterexample :
    allFormats.length = 25 ∧ allFormats.Nodup ∧
    (allFormats.all fun f =>
      (Decode (fun _ => f) nopPlain).isSome) = true ∧
    (allFormats.all fun f =>
      SizeInCodeUnits (fun _ => f) nopPlain == formatSize f) = true := by
  refine ⟨rfl, by decide, by decide, by decide⟩

/-- C6 (amended): the format catalogue consists of exactly 25 format
tags, all of them fixed-size layouts (at least one code unit, and the
size of a non-pseudo-signature instruction is determined by its
opcode's format alone); the three variable-size pseudo-instruction
layouts are not format tags but NOP-signature-encoded data blocks, and
operand decode over the format tags fails only when a
variable-argument count exceeds the five-slot capacity. -/
theorem claim_C6_format_catalogue_amended (fo : Nat → Format)
    (ins : Instruction) (f : Format) :
    allFormats.length = 25 ∧ allFormats.Nodup ∧ f ∈ allFormats ∧
    1 ≤ formatSize f ∧
    (ins.fetch 0 ≠ kPackedSwitchSignature →
      ins.fetch 0 ≠ kSparseSwitchSignature →
      ins.fetch 0 ≠ kArrayDataSignature →
      SizeInCodeUnits fo ins = formatSize (fo (Opcode ins))) ∧
    (Decode fo ins = none →
      (fo (Opcode ins) = .k35c ∧ 5 < INST_B (ins.fetch 0)) ∨
      (fo (Opcode ins) = .k3rc ∧ 5 < INST_AA (ins.fetch 0))) := by
  refine ⟨rfl, by decide, by cases f <;> decide, formatSize_pos f, ?_, ?_⟩
  · intro h1 h2 h3
    unfold SizeInCodeUnits
    rw [if_neg h1, if_neg h2, if_neg h3]
  · intro hnone
    cases hf : fo (Opcode ins) <;> simp [Decode, hf] at hnone
    · exact Or.inl ⟨rfl, by omega⟩
    · exact Or.inr ⟨rfl, by omega⟩

/-- Witness for the amended C6: at a concrete plain-NOP stream the
size is the format's fixed unit count. -/
theorem claim_C6_format_catalogue_amended_witness :
    SizeInCodeUnits foNop nopPlain =
      formatSize (foNop (Opcode nopPlain)) :=
  (claim_C6_format_catalogue_amended foNop nopPlain
    Format.k51l).2.2.2.2.1 (by decide) (by decide) (by decide)

/-- C7 counterexample: two streams agreeing on their opcode (both NOP,
whose format under the table in use is the fixed layout `k10x`) have
different `SizeInCodeUnits`: the plain NOP unit 0x0000 has size 1,
while the unit 0x0100 — the packed-switch signature, also opcode NOP —
is sized from its payload, here 10.  Size is therefore not a function
of the opcode alone even for a fixed-format opcode. -/
theorem claim_C7_size_opcode_counterexample :
    Opcode nopPlain = Opcode packed3 ∧
    foNop (Opcode nopPlain) = Format.k10x ∧
    SizeInCodeUnits foNop nopPlain = 1 ∧
    SizeInCodeUnits foNop packed3 = 10 ∧
    SizeInCodeUnits foNop nopPlain ≠
      SizeInCodeUnits foNop packed3 := by
  refine ⟨by decide, by decide, by decide, by decide, by decide⟩

/-- C7 (amended): for every opcode other than NOP, `SizeInCodeUnits`
returns the same value on any two streams agreeing on that opcode —
the size is a function of the opcode alone; only NOP-opcoded units can
be pseudo-instruction signatures, whose size comes from the payload. -/
theorem claim_C7_size_opcode_determined_amended (fo : Nat → Format)
    (ins1 ins2 : Instruction) (hop : Opcode ins1 = Opcode ins2)
    (hnop : Opcode ins1 ≠ NOP) :
    SizeInCodeUnits fo ins1 = SizeInCodeUnits fo ins2 := by
  have key : ∀ ins : Instruction, Opcode ins ≠ NOP →
      SizeInCodeUnits fo ins = formatSize (fo (Opcode ins)) := by
    intro ins hn
    have h1 : ins.fetch 0 ≠ kPackedSwitchSignature := fun h =>
      hn (by simp [Opcode, h, kPackedSwitchSignature, NOP])
    have h2 : ins.fetch 0 ≠ kSparseSwitchSignature := fun h =>
      hn (by simp [Opcode, h, kSparseSwitchSignature, NOP])
    have h3 : ins.fetch 0 ≠ kArrayDataSignature := fun h =>
      hn (by simp [Opcode, h, kArrayDataSignature, NOP])
    unfold SizeInCodeUnits
    rw [if_neg h1, if_neg h2, if_neg h3]
  rw [key ins1 hnop, key ins2 (hop ▸ hnop), hop]

/-- Witness for the amended C7: two streams with the same non-NOP
opcode 0x01 but different operand bits have equal sizes. -/
theorem claim_C7_size_opcode_determined_amended_witness :
    SizeInCodeUnits (fun _ => Format.k12x) ⟨streamOf [0x2301], 0⟩ =
      SizeInCodeUnits (fun _ => Format.k12x) ⟨streamOf [0xAB01, 7], 0⟩ :=
  claim_C7_size_opcode_determined_amended (fun _ => Format.k12x)
    ⟨streamOf [0x2301], 0⟩ ⟨streamOf [0xAB01, 7], 0⟩
    (by decide) (by decide)

/-- C10: `At` fails fast on a null code pointer (the `CHECK`), and on
any non-null pointer returns the view anchored at exactly that address
without copying. -/
theorem claim_C10_at_requires_non_null (ins : Instruction) :
    At none = Except.error "code != NULL" ∧
    At (some ins) = Except.ok ins :=
  ⟨rfl, rfl⟩

end Instruction

end Art
